import Mathlib

/-!
Shallow embedding of the verification-relevant parts of the aiida-kkr
repository: the `combine_imps_wc` workchain (`_combine_imps.py`), the
`kkr_dos_wc` workchain (`dos.py`), `VoronoiCalculation.find_parent_structure`
(`voro.py`), and the parser aggregation layer exercised by
`test_kkrparser_functions.py`.
-/

namespace AiidaKkr

/-- Exit codes declared by `combine_imps_wc.define` (spec.exit_code calls). -/
inductive ExitCode
  | ERROR_SOMETHING_WENT_WRONG
  | ERROR_HOST_STRUCTURES_INCONSISTENT
  | ERROR_INPUT_NOT_SINGLE_IMP_CALC
  | ERROR_INPLANE_NEIGHBOR_TOO_SMALL
  | ERROR_INCONSISTENT_NSPIN_VALUES
  | ERROR_HOST_GF_CALC_FAILED
  deriving DecidableEq, Repr

/-- The fields of an `impurity_info` Dict node used by `create_big_cluster`:
the layer index of the impurity center and the `Zimp` list. -/
structure ImpInfo where
  ilayer_center : ℤ
  Zimp : List ℤ
  deriving DecidableEq

/-- `combine_imps_wc.get_and_check_zimp_list`: extracts the zimp list and
checks that it describes a single impurity (`len(zimp) == 1`). -/
def get_and_check_zimp_list (impurity_info : ImpInfo) : List ℤ × Bool :=
  (impurity_info.Zimp, impurity_info.Zimp.length == 1)

/-- `combine_imps_wc.create_big_cluster`: validation and cluster combination.
The external calcfunction `create_combined_imp_info_cf` (not part of this
module) is abstracted as the parameter `combine`; the offset index is
`self.inputs.offset_imp2['index']`. -/
def create_big_cluster {Cluster : Type} (combine : ImpInfo → ImpInfo → ℤ → Cluster)
    (impinfo1 impinfo2 : ImpInfo) (offset_index : ℤ) : Except ExitCode Cluster :=
  if offset_index < 0 then
    .error .ERROR_INPLANE_NEIGHBOR_TOO_SMALL
  else if impinfo1.ilayer_center = impinfo2.ilayer_center ∧ offset_index < 1 then
    .error .ERROR_INPLANE_NEIGHBOR_TOO_SMALL
  else if (get_and_check_zimp_list impinfo1).2 = false then
    .error .ERROR_INPUT_NOT_SINGLE_IMP_CALC
  else if (get_and_check_zimp_list impinfo2).2 = false then
    .error .ERROR_INPUT_NOT_SINGLE_IMP_CALC
  else
    .ok (combine impinfo1 impinfo2 offset_index)

/-- `combine_imps_wc.create_big_potential`: checks nspin consistency of the
two impurity calculations and then calls `combine_potentials_cf` (abstracted
as the parameter `combine`, applied to the kickout info, the two potentials
and the common nspin). -/
def create_big_potential {Kick Pot Out : Type} (combine : Kick → Pot → Pot → ℕ → Out)
    (kickout_info : Kick) (nspin1 nspin2 : ℕ) (pot_imp1 pot_imp2 : Pot) :
    Except ExitCode Out :=
  if nspin1 ≠ nspin2 then
    .error .ERROR_INCONSISTENT_NSPIN_VALUES
  else
    .ok (combine kickout_info pot_imp1 pot_imp2 nspin1)

/-- The part of the workchain context consulted by `combine_imps_wc.run_jij`:
whether the kkrimp scf sub-workflow finished ok, the optional value of the
run option key used by `run_jij`, and `ctx.jij_option`. -/
structure JijRunState where
  kkrimp_scf_finished_ok : Bool
  run_options_jij_run : Option Bool
  jij_option : Bool
  deriving DecidableEq

/-- `combine_imps_wc.run_jij`: the outline guard of the jij step. Returns the
decision (the guard of `if_(cls.run_jij)(cls.run_jij_step)`) together with the
updated context. -/
def run_jij (s : JijRunState) : Bool × JijRunState :=
  if ¬ s.kkrimp_scf_finished_ok then
    (false, s)
  else
    let s1 := match s.run_options_jij_run with
      | some v => { s with jij_option := v }
      | none => s
    (s1.jij_option, s1)

/-- `combine_imps_wc.run_jij_step`: submits the jij calculation (abstracted as
`submit`) only when the kkrimp scf sub-workflow finished ok, otherwise it
returns `ERROR_SOMETHING_WENT_WRONG` without submitting. -/
def run_jij_step {Sub : Type} (submit : Sub) (kkrimp_scf_finished_ok : Bool) :
    Except ExitCode Sub :=
  if kkrimp_scf_finished_ok then .ok submit
  else .error .ERROR_SOMETHING_WENT_WRONG

end AiidaKkr

namespace AiidaKkr

/-- C3: `create_big_cluster` rejects with `ERROR_INPLANE_NEIGHBOR_TOO_SMALL`,
for every combiner function (hence before any combined cluster is created),
exactly when the offset index is negative, or the offset index is smaller
than 1 while the two impurities sit in the same host layer; in particular
offset index 0 with the impurities in different layers is never rejected with
this error. -/
theorem create_big_cluster_inplane_guard {Cluster : Type}
    (combine : ImpInfo → ImpInfo → ℤ → Cluster)
    (impinfo1 impinfo2 : ImpInfo) (offset_index : ℤ) :
    create_big_cluster combine impinfo1 impinfo2 offset_index =
        Except.error ExitCode.ERROR_INPLANE_NEIGHBOR_TOO_SMALL ↔
      offset_index < 0 ∨
        (impinfo1.ilayer_center = impinfo2.ilayer_center ∧ offset_index < 1) := by
  unfold create_big_cluster
  split
  · simp_all
  · split
    · simp_all
    · split
      · simp_all
      · split <;> simp_all

/-- C4: `create_big_potential` returns `ERROR_INCONSISTENT_NSPIN_VALUES`
exactly when the two spin counts differ (and then, for every combiner, no
combined potential is produced), and it returns the combined potential
exactly when the spin counts agree. -/
theorem create_big_potential_nspin_guard {Kick Pot Out : Type}
    (combine : Kick → Pot → Pot → ℕ → Out) (kickout_info : Kick)
    (nspin1 nspin2 : ℕ) (pot_imp1 pot_imp2 : Pot) :
    (create_big_potential combine kickout_info nspin1 nspin2 pot_imp1 pot_imp2 =
        Except.error ExitCode.ERROR_INCONSISTENT_NSPIN_VALUES ↔ nspin1 ≠ nspin2) ∧
      (create_big_potential combine kickout_info nspin1 nspin2 pot_imp1 pot_imp2 =
        Except.ok (combine kickout_info pot_imp1 pot_imp2 nspin1) ↔ nspin1 = nspin2) := by
  unfold create_big_potential
  by_cases h : nspin1 = nspin2 <;> simp [h]

/-- C10: if the kkrimp scf sub-workflow did not finish ok, `run_jij` returns
`false` (so the outline skips the guarded jij step) and `run_jij_step` itself
returns `ERROR_SOMETHING_WENT_WRONG` instead of submitting; hence the jij
calculation is never submitted unless the scf sub-workflow finished ok. -/
theorem run_jij_never_submits_on_failed_scf {Sub : Type} (submit : Sub)
    (s : JijRunState) (h : s.kkrimp_scf_finished_ok = false) :
    (run_jij s).1 = false ∧
      run_jij_step submit s.kkrimp_scf_finished_ok =
        Except.error ExitCode.ERROR_SOMETHING_WENT_WRONG := by
  constructor
  · simp [run_jij, h]
  · simp [run_jij_step, h]

/-- Witness for C10 at a concrete context state. -/
theorem run_jij_never_submits_on_failed_scf_witness :
    (JijRunState.mk false (some true) false).kkrimp_scf_finished_ok = false ∧
      ((run_jij (JijRunState.mk false (some true) false)).1 = false ∧
        run_jij_step (0 : ℕ) (JijRunState.mk false (some true) false).kkrimp_scf_finished_ok =
          Except.error ExitCode.ERROR_SOMETHING_WENT_WRONG) :=
  ⟨by decide, run_jij_never_submits_on_failed_scf (0 : ℕ) _ (by decide)⟩

end AiidaKkr

namespace AiidaKkr

/-- The node accessors used by `VoronoiCalculation.find_parent_structure`
(`calculations/voro.py`): `_has_struc`, `_get_struc`, `_get_remote` and
`_get_parent`. The `try/except` fallbacks inside the Python accessors are
absorbed into the total functions of this record. -/
structure ParentEnv (Node Struc : Type) where
  has_struc : Node → Bool
  get_struc : Node → Struc
  get_remote : Node → Node
  get_parent : Node → Node

/-- One parent-traversal step of the while loop in `find_parent_structure`:
`parent_folder_tmp = self._get_remote(self._get_parent(parent_folder_tmp))`. -/
def parent_step {Node Struc : Type} (env : ParentEnv Node Struc) (p : Node) : Node :=
  env.get_remote (env.get_parent p)

/-- The while loop of `find_parent_structure`
(`while not self._has_struc(parent_folder_tmp) and iiter < Nmaxiter`),
embedded with the remaining iteration budget `Nmaxiter - iiter` as fuel. -/
def find_loop {Node Struc : Type} (env : ParentEnv Node Struc) : ℕ → Node → Node
  | 0, p => p
  | fuel + 1, p => if env.has_struc p then p else find_loop env fuel (parent_step env p)

/-- `VoronoiCalculation.find_parent_structure`: starts from
`self._get_remote(parent_folder)`, loops at most `Nmaxiter = 100` times, and
returns `(struc, parent_folder_tmp)` when a structure was found, otherwise
falls through (returning `None`). -/
def find_parent_structure {Node Struc : Type} (env : ParentEnv Node Struc)
    (parent_folder : Node) : Option (Struc × Node) :=
  let parent_folder_tmp := find_loop env 100 (env.get_remote parent_folder)
  if env.has_struc parent_folder_tmp then
    some (env.get_struc parent_folder_tmp, parent_folder_tmp)
  else
    none

/-- The loop visits exactly the iterates of `parent_step`: it stops at the
first iterate carrying a structure, or after `fuel` steps. -/
theorem find_loop_iterate {Node Struc : Type} (env : ParentEnv Node Struc)
    (fuel : ℕ) (p : Node) :
    ∃ k ≤ fuel,
      (∀ m < k, env.has_struc ((parent_step env)^[m] p) = false) ∧
        find_loop env fuel p = (parent_step env)^[k] p := by
  induction fuel generalizing p with
  | zero => exact ⟨0, Nat.le_refl 0, by omega, rfl⟩
  | succ n ih =>
    by_cases h : env.has_struc p
    · refine ⟨0, Nat.zero_le _, by omega, ?_⟩
      simp [find_loop, h]
    · obtain ⟨k, hk, hmiss, heq⟩ := ih (parent_step env p)
      refine ⟨k + 1, by omega, ?_, ?_⟩
      · intro m hm
        cases m with
        | zero => simpa using h
        | succ m =>
          have := hmiss m (by omega)
          rwa [Function.iterate_succ_apply]
      · simp only [find_loop, h, Bool.false_eq_true, if_false]
        rw [heq, Function.iterate_succ_apply]

/-- C8: `find_parent_structure` terminates on every chain of parents: there
is a number `k ≤ 100` of executed loop iterations (all earlier iterates lack
a structure) such that the result is the structure of the `k`-th iterate
together with the folder it was found in when that iterate has a structure,
and `None` otherwise. -/
theorem find_parent_structure_terminates {Node Struc : Type}
    (env : ParentEnv Node Struc) (parent_folder : Node) :
    ∃ k ≤ 100,
      (∀ m < k,
          env.has_struc ((parent_step env)^[m] (env.get_remote parent_folder)) = false) ∧
        find_parent_structure env parent_folder =
          (if env.has_struc ((parent_step env)^[k] (env.get_remote parent_folder)) then
            some (env.get_struc ((parent_step env)^[k] (env.get_remote parent_folder)),
              (parent_step env)^[k] (env.get_remote parent_folder))
          else none) := by
  obtain ⟨k, hk, hmiss, heq⟩ := find_loop_iterate env 100 (env.get_remote parent_folder)
  refine ⟨k, hk, hmiss, ?_⟩
  unfold find_parent_structure
  rw [heq]

end AiidaKkr

namespace AiidaKkr

/-- The `dos_params` sub-dictionary of `kkr_dos_wc._wf_default`. -/
structure DosParams where
  nepts : ℤ
  tempr : ℤ
  emin : ℤ
  emax : ℤ
  kmesh : List ℤ
  deriving DecidableEq

/-- Values stored in the option/parameter dictionaries of `kkr_dos_wc`. -/
inductive OptVal
  | str (v : String)
  | int (v : ℤ)
  | bool (v : Bool)
  | resources (num_machines : ℤ)
  | dosParams (v : DosParams)
  deriving DecidableEq

/-- A Python dict with string keys, as an association list. -/
abbrev PyDict := List (String × OptVal)

/-- `d.get(key, default)` of a Python dict. -/
def PyDict.get (d : PyDict) (key : String) (default : OptVal) : OptVal :=
  match d.find? (fun kv => kv.1 == key) with
  | some kv => kv.2
  | none => default

/-- `d[key]` of a Python dict whose key is known to be present (the slot for
a missing key is irrelevant for the concrete dicts of `kkr_dos_wc`). -/
def PyDict.item (d : PyDict) (key : String) : OptVal :=
  PyDict.get d key (.str "KeyError")

/-- `kkr_dos_wc._wf_default`: the workflow-parameter defaults (only the
`dos_params` key). -/
def kkr_dos_wf_default : PyDict :=
  [("dos_params", .dosParams ⟨61, 200, -1, 1, [30, 30, 30]⟩)]

/-- `kkr_dos_wc._options_default`: the computer-option defaults. -/
def kkr_dos_options_default : PyDict :=
  [("queue_name", .str ""),
   ("resources", .resources 1),
   ("max_wallclock_seconds", .int 3600),
   ("use_mpi", .bool true),
   ("custom_scheduler_commands", .str "")]

/-- `kkr_dos_wc.define` declares the `options` input port with default
`Dict(dict=cls._wf_default)` (not `_options_default`): this is the value the
workflow sees when the caller omits `options`. -/
def kkr_dos_options_port_default : PyDict := kkr_dos_wf_default

/-- The computer options placed into the context by `kkr_dos_wc.start`. -/
structure DosCtxOptions where
  use_mpi : OptVal
  resources : OptVal
  max_wallclock_seconds : OptVal
  queue : OptVal
  custom_scheduler_commands : OptVal
  deriving DecidableEq

/-- The option handling of `kkr_dos_wc.start`: replace an empty options dict
by `_options_default` wholesale, then read every computer option with a
per-key fallback to `_options_default`. -/
def kkr_dos_start_options (options_input : PyDict) : DosCtxOptions :=
  let options_dict := if options_input = [] then kkr_dos_options_default else options_input
  { use_mpi :=
      options_dict.get "use_mpi" (kkr_dos_options_default.item "use_mpi"),
    resources :=
      options_dict.get "resources" (kkr_dos_options_default.item "resources"),
    max_wallclock_seconds :=
      options_dict.get "max_wallclock_seconds"
        (kkr_dos_options_default.item "max_wallclock_seconds"),
    queue :=
      options_dict.get "queue_name" (kkr_dos_options_default.item "queue_name"),
    custom_scheduler_commands :=
      options_dict.get "custom_scheduler_commands"
        (kkr_dos_options_default.item "custom_scheduler_commands") }

/-- C9: the `options` port default of `kkr_dos_wc` is `_wf_default`, which is
non-empty and carries none of the five computer-option keys, so the
empty-dict fallback of `start` does not trigger; nevertheless after `start`
every computer option in the context equals its `_options_default` value,
through the per-key fallbacks. -/
theorem kkr_dos_default_options_resolved :
    kkr_dos_options_port_default = kkr_dos_wf_default ∧
      kkr_dos_wf_default ≠ [] ∧
      (∀ key ∈ ["use_mpi", "resources", "max_wallclock_seconds", "queue_name",
          "custom_scheduler_commands"],
        (kkr_dos_wf_default.find? (fun kv => kv.1 == key)) = none) ∧
      kkr_dos_start_options kkr_dos_options_port_default =
        { use_mpi := kkr_dos_options_default.item "use_mpi",
          resources := kkr_dos_options_default.item "resources",
          max_wallclock_seconds := kkr_dos_options_default.item "max_wallclock_seconds",
          queue := kkr_dos_options_default.item "queue_name",
          custom_scheduler_commands :=
            kkr_dos_options_default.item "custom_scheduler_commands" } := by
  refine ⟨rfl, by decide, by decide, by decide⟩

end AiidaKkr

namespace AiidaKkr

/-- Modelled from the spec: one core state of an atom as read from the
potential file by the core-state extractor of `parse_kkr_outputfile`
(`aiida_kkr.tools.kkrparser_functions`, a repository module not under src/;
only its tests are). -/
structure CoreState where
  descr : String
  energy : ℚ
  deriving DecidableEq

/-- Modelled from the spec: the `core_states_group` of the Output Record. -/
structure CoreStatesGroup where
  number_of_core_states_per_atom : List ℕ
  energy_highest_lying_core_state_per_atom : List (Option ℚ)
  descr_highest_lying_core_state_per_atom : List String
  deriving DecidableEq

/-- Modelled from the spec: the highest-lying core state of one atom, when
the atom has core states at all. -/
def highest_core_state : List CoreState → Option CoreState
  | [] => none
  | c :: cs => some (cs.foldl (fun best d => if best.energy < d.energy then d else best) c)

/-- Modelled from the spec: the core-state extractor of
`parse_kkr_outputfile` (`aiida_kkr.tools.kkrparser_functions`, not under
src/). It reads the potential file (given here as the per-atom lists of core
states); atoms without core states get the sentinel "no core states"
description and a `None` energy rather than omission, preserving fixed
per-atom array length equal to `number_of_atoms`. -/
def core_states_extract (atoms : List (List CoreState)) : CoreStatesGroup :=
  { number_of_core_states_per_atom := atoms.map List.length,
    energy_highest_lying_core_state_per_atom :=
      atoms.map (fun cs => (highest_core_state cs).map CoreState.energy),
    descr_highest_lying_core_state_per_atom :=
      atoms.map (fun cs =>
        match highest_core_state cs with
        | none => "no core states"
        | some c => c.descr) }

/-- C5: every atom without core states is reported with the sentinel
description "no core states" and a `None` energy (not omitted), and all
per-atom arrays of the core-states group have length exactly
`number_of_atoms` (the number of atoms read from the potential file). -/
theorem core_states_sentinel (atoms : List (List CoreState)) :
    (core_states_extract atoms).number_of_core_states_per_atom.length = atoms.length ∧
      (core_states_extract atoms).energy_highest_lying_core_state_per_atom.length =
        atoms.length ∧
      (core_states_extract atoms).descr_highest_lying_core_state_per_atom.length =
        atoms.length ∧
      ∀ i : ℕ, atoms[i]? = some [] →
        (core_states_extract atoms).descr_highest_lying_core_state_per_atom[i]? =
            some "no core states" ∧
          (core_states_extract atoms).energy_highest_lying_core_state_per_atom[i]? =
            some (none : Option ℚ) := by
  refine ⟨by simp [core_states_extract], by simp [core_states_extract],
    by simp [core_states_extract], ?_⟩
  intro i hi
  constructor
  · simp only [core_states_extract, List.getElem?_map, hi, Option.map_some]
    rfl
  · simp only [core_states_extract, List.getElem?_map, hi, Option.map_some]
    rfl

/-- Witness for C5: a two-atom potential file where the first atom has no
core states and the second has one. -/
theorem core_states_sentinel_witness :
    ([[], [CoreState.mk "3p" (-3)]] : List (List CoreState))[0]? = some [] ∧
      (core_states_extract [[], [CoreState.mk "3p" (-3)]]
          ).descr_highest_lying_core_state_per_atom[0]? = some "no core states" ∧
        (core_states_extract [[], [CoreState.mk "3p" (-3)]]
          ).energy_highest_lying_core_state_per_atom[0]? = some (none : Option ℚ) :=
  ⟨by decide, (core_states_sentinel [[], [CoreState.mk "3p" (-3)]]).2.2.2 0 (by decide)⟩

end AiidaKkr

namespace AiidaKkr

/-- Modelled from the spec: the six output files consumed by
`parse_kkr_outputfile` (`aiida_kkr.tools.kkrparser_functions`, not under
src/): the primary run log, the initialization-phase log, the per-iteration
numbered log, the timing file, the potential file, and the non-collinear
angle file. -/
inductive KkrFile
  | out_kkr
  | output_0_init
  | output_000
  | out_timing_000
  | out_potential
  | nonco_angle_out
  deriving DecidableEq, Repr

/-- Modelled from the spec: one section extractor of the Aggregation &
Validation Engine: the name used in its quantity-specific message, whether it
is mandatory, and the output files it needs. -/
structure KkrExtractor where
  name : String
  mandatory : Bool
  needs : List KkrFile
  deriving DecidableEq

/-- Modelled from the spec: the fixed canonical list of extractors of
`parse_kkr_outputfile` (not under src/), in the fixed canonical message
order; the file dependencies follow the per-file ablation message lists of
`test_kkrparser_functions.py`, and every extractor is mandatory. -/
def canonical_extractors : List KkrExtractor :=
  [⟨"Version Info", true, [.out_kkr]⟩,
   ⟨"nspin/natom", true, [.output_0_init]⟩,
   ⟨"rms-error", true, [.out_kkr, .output_000]⟩,
   ⟨"charge neutrality", true, [.out_kkr]⟩,
   ⟨"total magnetic moment", true, [.out_kkr]⟩,
   ⟨"spin moment per atom", true, [.out_kkr, .output_0_init, .nonco_angle_out]⟩,
   ⟨"orbital moment", true, [.out_kkr, .output_0_init]⟩,
   ⟨"EF", true, [.out_kkr]⟩,
   ⟨"DOS@EF", true, [.out_kkr]⟩,
   ⟨"total energy", true, [.out_kkr]⟩,
   ⟨"search for warnings", true, [.out_kkr]⟩,
   ⟨"single particle energies", true, [.output_000]⟩,
   ⟨"charges", true, [.out_kkr, .output_000]⟩,
   ⟨"core_states", true, [.out_potential]⟩,
   ⟨"energy contour", true, [.output_0_init]⟩,
   ⟨"alat, 2*pi/alat", true, [.output_0_init]⟩,
   ⟨"scfinfo", true, [.out_kkr, .output_0_init, .output_000]⟩,
   ⟨"kmesh", true, [.output_0_init, .output_000]⟩,
   ⟨"symmetries", true, [.output_0_init]⟩,
   ⟨"ewald summation for madelung poterntial", true, [.output_0_init]⟩,
   ⟨"timings", true, [.out_timing_000]⟩]

/-- Modelled from the spec: an extractor succeeds on a valid file set exactly
when all the files it reads are present. -/
def extractor_ok (present : List KkrFile) (e : KkrExtractor) : Bool :=
  e.needs.all (fun f => present.contains f)

/-- Modelled from the spec: the Aggregation & Validation Engine of
`parse_kkr_outputfile` (not under src/): runs all extractors, collects one
quantity-specific message per failed extractor in the fixed canonical order,
and returns `success = True` only if zero mandatory extractors failed. -/
def parse_kkr_outputfile (present : List KkrFile) : Bool × List String :=
  let failed := canonical_extractors.filter (fun e => ! extractor_ok present e)
  ((failed.filter (fun e => e.mandatory)).isEmpty,
   failed.map (fun e => "Error parsing output of KKR: " ++ e.name))

/-- The complete valid file set of one KKR run. -/
def all_kkr_files : List KkrFile :=
  [.out_kkr, .output_0_init, .output_000, .out_timing_000, .out_potential,
   .nonco_angle_out]

/-- The file set of a run from which only `nonco_angle_out.dat` is absent. -/
def kkr_files_without_nonco : List KkrFile :=
  [.out_kkr, .output_0_init, .output_000, .out_timing_000, .out_potential]

/-- C6: on the complete valid set of the six output files,
`parse_kkr_outputfile` returns `success = True` with an empty message list;
and on every file set, `success = True` holds if and only if zero mandatory
extractors failed. -/
theorem parse_kkr_outputfile_success_iff :
    (parse_kkr_outputfile all_kkr_files).1 = true ∧
      (parse_kkr_outputfile all_kkr_files).2 = [] ∧
      ∀ present, ((parse_kkr_outputfile present).1 = true ↔
        canonical_extractors.filter
          (fun e => e.mandatory && ! extractor_ok present e) = []) := by
  refine ⟨by decide, by decide, ?_⟩
  intro present
  dsimp only [parse_kkr_outputfile]
  rw [List.filter_filter, List.isEmpty_iff]

/-- C7: when only the non-collinear angle file is absent,
`parse_kkr_outputfile` fails with exactly the single message
"Error parsing output of KKR: spin moment per atom", and every extractor
other than the spin-moment-per-atom one still succeeds. -/
theorem parse_kkr_outputfile_missing_nonco :
    (parse_kkr_outputfile kkr_files_without_nonco).1 = false ∧
      (parse_kkr_outputfile kkr_files_without_nonco).2 =
        ["Error parsing output of KKR: spin moment per atom"] ∧
      canonical_extractors.all (fun e =>
        (e.name == "spin moment per atom") ||
          extractor_ok kkr_files_without_nonco e) = true := by
  refine ⟨by decide, by decide, by decide⟩

end AiidaKkr

namespace AiidaKkr

/-- The raw `out_Jijmatrix` data of `parse_Jij` (`_combine_imps.py`), after
`jijdata.reshape(3, natom, natom, 3, 3)`: indexed as
`jij_reshape iiter iatom jatom k l`. -/
abbrev JijRaw : Type := Fin 3 → ℕ → ℕ → Fin 3 → Fin 3 → ℚ

/-- The `natom × natom × 3 × 3` working array `jij_combined_iter`. -/
abbrev JijArr : Type := ℕ → ℕ → Fin 3 → Fin 3 → ℚ

/-- One numpy element assignment `A[i, j, k, l] = v`. -/
def writeJij (A : JijArr) (i j : ℕ) (k l : Fin 3) (v : ℚ) : JijArr :=
  fun i' j' k' l' => if i' = i ∧ j' = j ∧ k' = k ∧ l' = l then v else A i' j' k' l'

/-- The body of the `for iiter in range(3)` loop of `parse_Jij`: iteration 0
writes the xx, xy, yx, yy components, iteration 1 writes yz, zy, zz, and
iteration 2 writes xz, zx and then adds its zz value to the stored zz and
halves it (`+=` followed by `*= 0.5`). -/
def jijIterUpdate (raw : JijRaw) (iatom jatom : ℕ) (iiter : Fin 3) (A : JijArr) : JijArr :=
  if iiter = 0 then
    writeJij (writeJij (writeJij (writeJij A
      iatom jatom 0 0 (raw iiter iatom jatom 0 0))
      iatom jatom 0 1 (raw iiter iatom jatom 0 1))
      iatom jatom 1 0 (raw iiter iatom jatom 1 0))
      iatom jatom 1 1 (raw iiter iatom jatom 1 1)
  else if iiter = 1 then
    writeJij (writeJij (writeJij A
      iatom jatom 1 2 (raw iiter iatom jatom 1 2))
      iatom jatom 2 1 (raw iiter iatom jatom 2 1))
      iatom jatom 2 2 (raw iiter iatom jatom 2 2)
  else
    let A1 := writeJij (writeJij A
      iatom jatom 0 2 (raw iiter iatom jatom 0 2))
      iatom jatom 2 0 (raw iiter iatom jatom 2 0)
    let A2 := writeJij A1 iatom jatom 2 2 (A1 iatom jatom 2 2 + raw iiter iatom jatom 2 2)
    writeJij A2 iatom jatom 2 2 (A2 iatom jatom 2 2 * (1 / 2 : ℚ))

/-- The three orientation-iterations applied to one atom pair, in loop order. -/
def jijPairUpdate (raw : JijRaw) (iatom jatom : ℕ) (A : JijArr) : JijArr :=
  List.foldl (fun B iiter => jijIterUpdate raw iatom jatom iiter B) A
    [(0 : Fin 3), 1, 2]

/-- The atom-pair loop indices of `parse_Jij`:
`for iatom in range(natom-1): for jatom in range(natom)[iatom+1:]`. -/
def jijPairs (natom : ℕ) : List (ℕ × ℕ) :=
  (List.range (natom - 1)).flatMap
    (fun iatom => ((List.range natom).drop (iatom + 1)).map (fun jatom => (iatom, jatom)))

/-- `jij_combined_iter` of `parse_Jij`: starts from `np.zeros` and runs the
pair loop. -/
def jij_combined_iter (raw : JijRaw) (natom : ℕ) : JijArr :=
  List.foldl (fun A p => jijPairUpdate raw p.1 p.2 A) (fun _ _ _ _ => 0) (jijPairs natom)

lemma jijIterUpdate_other (raw : JijRaw) (iatom jatom : ℕ) (iiter : Fin 3) (A : JijArr)
    (i j : ℕ) (k l : Fin 3) (h : ¬ (i = iatom ∧ j = jatom)) :
    jijIterUpdate raw iatom jatom iiter A i j k l = A i j k l := by
  rcases Decidable.not_and_iff_or_not.mp h with h1 | h1 <;>
    · unfold jijIterUpdate
      split
      · simp [writeJij, h1]
      · split
        · simp [writeJij, h1]
        · simp [writeJij, h1]

lemma jijPairUpdate_other (raw : JijRaw) (iatom jatom : ℕ) (A : JijArr)
    (i j : ℕ) (k l : Fin 3) (h : ¬ (i = iatom ∧ j = jatom)) :
    jijPairUpdate raw iatom jatom A i j k l = A i j k l := by
  simp only [jijPairUpdate, List.foldl_cons, List.foldl_nil]
  rw [jijIterUpdate_other _ _ _ _ _ _ _ _ _ h, jijIterUpdate_other _ _ _ _ _ _ _ _ _ h,
    jijIterUpdate_other _ _ _ _ _ _ _ _ _ h]

/-- The value of the combined tensor block of one pair; it does not depend on
the incoming array because all nine components are written. -/
def jijPairValue (raw : JijRaw) (iatom jatom : ℕ) (k l : Fin 3) : ℚ :=
  jijPairUpdate raw iatom jatom (fun _ _ _ _ => 0) iatom jatom k l

lemma jijPairUpdate_self (raw : JijRaw) (iatom jatom : ℕ) (A : JijArr) (k l : Fin 3) :
    jijPairUpdate raw iatom jatom A iatom jatom k l = jijPairValue raw iatom jatom k l := by
  fin_cases k <;> fin_cases l <;>
    simp [jijPairValue, jijPairUpdate, jijIterUpdate, writeJij]

lemma jij_foldl_at (raw : JijRaw) (L : List (ℕ × ℕ)) (A : JijArr)
    (i j : ℕ) (k l : Fin 3) :
    List.foldl (fun B p => jijPairUpdate raw p.1 p.2 B) A L i j k l =
      if (i, j) ∈ L then jijPairValue raw i j k l else A i j k l := by
  induction L generalizing A with
  | nil => simp
  | cons p rest ih =>
    obtain ⟨a, b⟩ := p
    rw [List.foldl_cons, ih]
    by_cases hmem : (i, j) ∈ rest
    · simp [hmem]
    · by_cases hab : i = a ∧ j = b
      · obtain ⟨rfl, rfl⟩ := hab
        simp [hmem, jijPairUpdate_self]
      · have hne : ¬ ((i, j) = (a, b)) := by
          intro hcon
          exact hab ⟨congrArg Prod.fst hcon, congrArg Prod.snd hcon⟩
        simp [hmem, hne, jijPairUpdate_other _ _ _ _ _ _ _ _ hab]

lemma mem_drop_range (n kk m : ℕ) : m ∈ (List.range n).drop kk ↔ kk ≤ m ∧ m < n := by
  constructor
  · intro h
    have h2 := List.mem_of_mem_drop h
    simp only [List.mem_range] at h2
    refine ⟨?_, h2⟩
    rcases List.mem_iff_getElem.mp h with ⟨i, hi, hget⟩
    rw [List.getElem_drop, List.getElem_range] at hget
    omega
  · intro hm
    obtain ⟨h1, h2⟩ := hm
    rcases Nat.exists_eq_add_of_le h1 with ⟨d, rfl⟩
    rw [List.mem_iff_getElem]
    refine ⟨d, ?_, ?_⟩
    · simp [List.length_drop]
      omega
    · rw [List.getElem_drop, List.getElem_range]

lemma mem_jijPairs (natom i j : ℕ) : (i, j) ∈ jijPairs natom ↔ i < j ∧ j < natom := by
  simp only [jijPairs, List.mem_flatMap, List.mem_map, List.mem_range]
  constructor
  · rintro ⟨a, ha, b, hb, hij⟩
    obtain ⟨rfl, rfl⟩ := Prod.mk.injEq .. |>.mp hij
    have := (mem_drop_range _ _ _).mp hb
    omega
  · rintro ⟨hij, hj⟩
    refine ⟨i, by omega, j, ?_, rfl⟩
    exact (mem_drop_range _ _ _).mpr ⟨by omega, hj⟩

/-- Shared characterization of the combined exchange tensor of `parse_Jij`
for a pair `i < j < natom`: each component in terms of the raw per-iteration
matrices. -/
lemma jij_combined_iter_entries (raw : JijRaw) (natom i j : ℕ)
    (hij : i < j) (hj : j < natom) :
    jij_combined_iter raw natom i j 0 0 = raw 0 i j 0 0 ∧
      jij_combined_iter raw natom i j 0 1 = raw 0 i j 0 1 ∧
      jij_combined_iter raw natom i j 1 0 = raw 0 i j 1 0 ∧
      jij_combined_iter raw natom i j 1 1 = raw 0 i j 1 1 ∧
      jij_combined_iter raw natom i j 1 2 = raw 1 i j 1 2 ∧
      jij_combined_iter raw natom i j 2 1 = raw 1 i j 2 1 ∧
      jij_combined_iter raw natom i j 0 2 = raw 2 i j 0 2 ∧
      jij_combined_iter raw natom i j 2 0 = raw 2 i j 2 0 ∧
      jij_combined_iter raw natom i j 2 2 = (raw 1 i j 2 2 + raw 2 i j 2 2) / 2 := by
  have hmem : (i, j) ∈ jijPairs natom := (mem_jijPairs natom i j).mpr ⟨hij, hj⟩
  unfold jij_combined_iter
  rw [jij_foldl_at, jij_foldl_at, jij_foldl_at, jij_foldl_at, jij_foldl_at,
    jij_foldl_at, jij_foldl_at, jij_foldl_at, jij_foldl_at]
  simp only [hmem, if_true]
  refine ⟨?_, ?_, ?_, ?_, ?_, ?_, ?_, ?_, ?_⟩ <;>
    · simp [jijPairValue, jijPairUpdate, jijIterUpdate, writeJij]
      try ring

end AiidaKkr

namespace AiidaKkr

/-- `jij_combined_iter *= -1.*Ry2eV*1000`: the unit conversion and sign flip
of `parse_Jij` (the Rydberg-to-eV constant `get_Ry2eV()` comes from the
external masci_tools library and is kept as a parameter). -/
def jij_combined_scaled (Ry2eV : ℚ) (raw : JijRaw) (natom : ℕ) : JijArr :=
  fun i j k l => jij_combined_iter raw natom i j k l * (-1 * Ry2eV * 1000)

/-- `jij_trace` of `parse_Jij`: the scalar coupling reported per atom pair,
`(c[0,0] + c[1,1] + c[2,2]) / 3` of the converted tensor. -/
def jij_trace (Ry2eV : ℚ) (raw : JijRaw) (natom : ℕ) (i j : ℕ) : ℚ :=
  (jij_combined_scaled Ry2eV raw natom i j 0 0 +
    jij_combined_scaled Ry2eV raw natom i j 1 1 +
    jij_combined_scaled Ry2eV raw natom i j 2 2) / 3

/-- `Dij_vec` of `parse_Jij`: the Dzyaloshinskii-Moriya vector reported per
atom pair, component `d` of `(c[1,2]-c[2,1], c[2,0]-c[0,2], c[0,1]-c[1,0])`
of the converted tensor. -/
def Dij_vec (Ry2eV : ℚ) (raw : JijRaw) (natom : ℕ) : Fin 3 → ℕ → ℕ → ℚ
  | 0, i, j => jij_combined_scaled Ry2eV raw natom i j 1 2 -
      jij_combined_scaled Ry2eV raw natom i j 2 1
  | 1, i, j => jij_combined_scaled Ry2eV raw natom i j 2 0 -
      jij_combined_scaled Ry2eV raw natom i j 0 2
  | 2, i, j => jij_combined_scaled Ry2eV raw natom i j 0 1 -
      jij_combined_scaled Ry2eV raw natom i j 1 0

/-- The spec's words for the scalar coupling: the trace, divided by 3, of the
tensor in which every component has been multiplied by −1000 times the
Rydberg-to-eV constant. -/
def spec_scalar_coupling (Ry2eV : ℚ) (T : Fin 3 → Fin 3 → ℚ) : ℚ :=
  ((-1000 * Ry2eV) * T 0 0 + (-1000 * Ry2eV) * T 1 1 + (-1000 * Ry2eV) * T 2 2) / 3

/-- The spec's words for the DM vector: the off-diagonal differences
(yz − zy, zx − xz, xy − yx) of the tensor under the same conversion. -/
def spec_DM_vector (Ry2eV : ℚ) (T : Fin 3 → Fin 3 → ℚ) : ℚ × ℚ × ℚ :=
  ((-1000 * Ry2eV) * T 1 2 - (-1000 * Ry2eV) * T 2 1,
   (-1000 * Ry2eV) * T 2 0 - (-1000 * Ry2eV) * T 0 2,
   (-1000 * Ry2eV) * T 0 1 - (-1000 * Ry2eV) * T 1 0)

/-- A concrete raw Jij input used to witness the pair (i, j) = (0, 1) of a
2-atom, 3-iteration data set. -/
def exampleJijRaw : JijRaw :=
  fun iiter i j k l =>
    ((iiter : ℕ) : ℚ) * 9 + ((k : ℕ) : ℚ) * 3 + ((l : ℕ) : ℚ) + (i : ℚ) + (j : ℚ)

/-- C1: for every raw input reshaped to (3, natom, natom, 3, 3) and every
atom pair i < j < natom, the combined tensor built by `parse_Jij` takes xx,
xy, yx, yy from iteration 0, yz and zy from iteration 1, xz and zx from
iteration 2, and its zz component is the average of the zz values of
iterations 1 and 2. -/
theorem parse_Jij_component_selection (raw : JijRaw) (natom i j : ℕ)
    (hij : i < j) (hj : j < natom) :
    jij_combined_iter raw natom i j 0 0 = raw 0 i j 0 0 ∧
      jij_combined_iter raw natom i j 0 1 = raw 0 i j 0 1 ∧
      jij_combined_iter raw natom i j 1 0 = raw 0 i j 1 0 ∧
      jij_combined_iter raw natom i j 1 1 = raw 0 i j 1 1 ∧
      jij_combined_iter raw natom i j 1 2 = raw 1 i j 1 2 ∧
      jij_combined_iter raw natom i j 2 1 = raw 1 i j 2 1 ∧
      jij_combined_iter raw natom i j 0 2 = raw 2 i j 0 2 ∧
      jij_combined_iter raw natom i j 2 0 = raw 2 i j 2 0 ∧
      jij_combined_iter raw natom i j 2 2 = (raw 1 i j 2 2 + raw 2 i j 2 2) / 2 :=
  jij_combined_iter_entries raw natom i j hij hj

/-- Witness for C1 on the concrete 2-atom input: the zz component of pair
(0, 1) is the average of the zz values of iterations 1 and 2. -/
theorem parse_Jij_component_selection_witness :
    0 < 1 ∧ 1 < 2 ∧
      jij_combined_iter exampleJijRaw 2 0 1 2 2 =
        (exampleJijRaw 1 0 1 2 2 + exampleJijRaw 2 0 1 2 2) / 2 :=
  ⟨by decide, by decide,
    (parse_Jij_component_selection exampleJijRaw 2 0 1 (by decide)
        (by decide)).2.2.2.2.2.2.2.2⟩

/-- C2: for every atom pair i < j < natom, the scalar coupling `jij_trace`
reported by `parse_Jij` equals the trace divided by 3 of the combined tensor
after every component is multiplied by −1000 times the Rydberg-to-eV
constant, and the reported DM vector `Dij_vec` equals the off-diagonal
differences (yz − zy, zx − xz, xy − yx) under the same conversion; expanded
over the selection rule, the scalar and vector are the stated polynomials of
the raw entries. -/
theorem parse_Jij_trace_and_DM (Ry2eV : ℚ) (raw : JijRaw) (natom i j : ℕ)
    (hij : i < j) (hj : j < natom) :
    jij_trace Ry2eV raw natom i j =
        spec_scalar_coupling Ry2eV (jij_combined_iter raw natom i j) ∧
      (Dij_vec Ry2eV raw natom 0 i j, Dij_vec Ry2eV raw natom 1 i j,
          Dij_vec Ry2eV raw natom 2 i j) =
        spec_DM_vector Ry2eV (jij_combined_iter raw natom i j) ∧
      jij_trace Ry2eV raw natom i j =
        (-1000 * Ry2eV) *
          (raw 0 i j 0 0 + raw 0 i j 1 1 + (raw 1 i j 2 2 + raw 2 i j 2 2) / 2) / 3 ∧
      Dij_vec Ry2eV raw natom 0 i j =
        (-1000 * Ry2eV) * (raw 1 i j 1 2 - raw 1 i j 2 1) ∧
      Dij_vec Ry2eV raw natom 1 i j =
        (-1000 * Ry2eV) * (raw 2 i j 2 0 - raw 2 i j 0 2) ∧
      Dij_vec Ry2eV raw natom 2 i j =
        (-1000 * Ry2eV) * (raw 0 i j 0 1 - raw 0 i j 1 0) := by
  obtain ⟨e00, e01, e10, e11, e12, e21, e02, e20, e22⟩ :=
    jij_combined_iter_entries raw natom i j hij hj
  refine ⟨?_, ?_, ?_, ?_, ?_, ?_⟩
  · simp only [jij_trace, jij_combined_scaled, spec_scalar_coupling]
    ring
  · simp only [Dij_vec, jij_combined_scaled, spec_DM_vector, Prod.mk.injEq]
    refine ⟨by ring, by ring, by ring⟩
  · simp only [jij_trace, jij_combined_scaled, e00, e11, e22]
    ring
  · simp only [Dij_vec, jij_combined_scaled, e12, e21]
    ring
  · simp only [Dij_vec, jij_combined_scaled, e20, e02]
    ring
  · simp only [Dij_vec, jij_combined_scaled, e01, e10]
    ring

/-- Witness for C2 on the concrete 2-atom input with Ry2eV = 13. -/
theorem parse_Jij_trace_and_DM_witness :
    0 < 1 ∧ 1 < 2 ∧
      jij_trace 13 exampleJijRaw 2 0 1 =
        spec_scalar_coupling 13 (jij_combined_iter exampleJijRaw 2 0 1) :=
  ⟨by decide, by decide,
    (parse_Jij_trace_and_DM 13 exampleJijRaw 2 0 1 (by decide) (by decide)).1⟩

end AiidaKkr
